import Mathlib

/-!
Shallow embedding of the auction-audit filter registry, matched-event
producer and S3 upload client of the OpenAds server (package
`auctionaudit` and `s3`), together with proofs of the specification
claims about them.

Machine integers (`int32`, `int64`, Go `int`) are modelled as `Int`;
the one place where a conversion through `uint32` matters (the
big-endian session-id key) takes the value modulo `2^32` explicitly.
Go maps are modelled as association lists with in-place replacement on
insert, mirroring the unique-key semantics of a map; time is passed
explicitly (the millisecond reading that the Go code obtains from
`time.Now()`).
-/

namespace AuctionAudit

/-- The protobuf `MediaType` enum: the four concrete media types of the
wire schema plus the zero `UNSPECIFIED` value. -/
inductive MediaType where
  | unspecified
  | banner
  | video
  | audio
  | native
deriving DecidableEq, Repr

/-- `AuctionFilterRequest`, the protobuf-generated filter-subscription
message stored by the registry (fields as used by
`FilterRegistry.Register` and friends). -/
structure AuctionFilterRequest where
  sessionId : Int
  partitionId : Int
  accountId : String
  domain : String
  appBundle : String
  mediaTypes : List MediaType
  expiresAtMs : Int
deriving DecidableEq, Repr

/-- The body of `ToMediaTypeSet`'s loop: or the bit of one media type
into the accumulated mask, `BANNER=1, VIDEO=2, AUDIO=4, NATIVE=8`;
unknown values contribute nothing. -/
def toMediaTypeSetStep (set : Nat) (t : MediaType) : Nat :=
  match t with
  | .banner => set ||| 1
  | .video => set ||| 2
  | .audio => set ||| 4
  | .native => set ||| 8
  | .unspecified => set

/-- `ToMediaTypeSet`: fold the media-type list into the 4-bit mask. -/
def ToMediaTypeSet (types : List MediaType) : Nat :=
  types.foldl toMediaTypeSetStep 0

/-- The mask determined by four membership flags, one per media type:
the closed form of `ToMediaTypeSet` used to reason about it. -/
def maskOf (b1 b2 b3 b4 : Bool) : Nat :=
  (cond b1 1 0) ||| (cond b2 2 0) ||| (cond b3 4 0) ||| (cond b4 8 0)

/-- `MediaTypeSet.Intersects`: true when some media type is in both sets. -/
def Intersects (s other : Nat) : Bool :=
  (s &&& other) != 0

/-- `MediaTypeSet.ToSlice`: expand the bitmask back into a slice of
`MediaType` enums, in bit order. -/
def ToSlice (s : Nat) : List MediaType :=
  let result : List MediaType := []
  let result := if s &&& 1 != 0 then result ++ [.banner] else result
  let result := if s &&& 2 != 0 then result ++ [.video] else result
  let result := if s &&& 4 != 0 then result ++ [.audio] else result
  let result := if s &&& 8 != 0 then result ++ [.native] else result
  result

/-- `storedFilter`: the registry entry, the wire filter plus its
precomputed media-type mask. -/
structure StoredFilter where
  filter : AuctionFilterRequest
  mediaTypeSet : Nat
deriving DecidableEq, Repr

/-- `strings.EqualFold`, modelled as lower-cased equality (the Go
function performs Unicode simple case folding; on the ASCII strings of
this domain the two agree). -/
def stringEqualFold (a b : String) : Bool :=
  a.toLower == b.toLower

/-- `storedFilter.matches`: empty `Domain` / `AppBundle` / mask means
"any"; otherwise case-insensitive string equality resp. non-empty mask
intersection. -/
def StoredFilter.matches (f : StoredFilter) (domain appBundle : String)
    (eventMediaTypes : Nat) : Bool :=
  if f.filter.domain != "" && !(stringEqualFold f.filter.domain domain) then
    false
  else if f.filter.appBundle != "" && !(stringEqualFold f.filter.appBundle appBundle) then
    false
  else if f.mediaTypeSet != 0 && !(Intersects f.mediaTypeSet eventMediaTypes) then
    false
  else
    true

/-- Association-list lookup, mirroring a Go map read (`m[k]`). -/
def alistLookup {κ α : Type} [DecidableEq κ] (l : List (κ × α)) (k : κ) : Option α :=
  match l with
  | [] => none
  | (k', v) :: rest => if k' = k then some v else alistLookup rest k

/-- Association-list insert, mirroring a Go map write (`m[k] = v`):
replaces the entry in place when the key is present, appends otherwise. -/
def alistInsert {κ α : Type} [DecidableEq κ] (l : List (κ × α)) (k : κ) (v : α) :
    List (κ × α) :=
  match l with
  | [] => [(k, v)]
  | (k', v') :: rest =>
      if k' = k then (k, v) :: rest else (k', v') :: alistInsert rest k v

/-- Association-list erase, mirroring a Go map delete (`delete(m, k)`). -/
def alistErase {κ α : Type} [DecidableEq κ] (l : List (κ × α)) (k : κ) :
    List (κ × α) :=
  match l with
  | [] => []
  | (k', v') :: rest =>
      if k' = k then rest else (k', v') :: alistErase rest k

/-- `FilterRegistry`: the two-level map `accountId → sessionId → storedFilter`
with its maintained size, capacity, and max TTL (in milliseconds). -/
structure FilterRegistry where
  byAccount : List (String × List (Int × StoredFilter))
  count : Int
  maxFilters : Int
  maxTTL : Int
deriving Repr

/-- `NewFilterRegistry`. -/
def NewFilterRegistry (maxFilters maxTTL : Int) : FilterRegistry :=
  { byAccount := [], count := 0, maxFilters := maxFilters, maxTTL := maxTTL }

/-- The two sentinel errors `ErrInvalidFilterRequest` and
`ErrRegistryAtCapacity`. -/
inductive RegistryError where
  | invalidFilterRequest
  | registryAtCapacity
deriving DecidableEq, Repr

/-- Result of a `Register` call: the returned error (if any), the
registry after the call, and the caller's filter object after the call
(`Register` receives a pointer and may mutate `ExpiresAtMs` in place). -/
structure RegisterResult where
  err : Option RegistryError
  registry : FilterRegistry
  callerFilter : Option AuctionFilterRequest
deriving Repr

/-- The stored entry at key `(accountId, sessionId)`, reading through
both map levels (a `nil` inner map yields `none`). -/
def lookupFilter (r : FilterRegistry) (accountId : String) (sessionId : Int) :
    Option StoredFilter :=
  match alistLookup r.byAccount accountId with
  | none => none
  | some inner => alistLookup inner sessionId

/-- Whether the `(accountId, sessionId)` key is currently stored: the
`exists` test of `Register`. -/
def keyExists (r : FilterRegistry) (accountId : String) (sessionId : Int) : Bool :=
  (lookupFilter r accountId sessionId).isSome

/-- The expiry clamp of `Register`: `0` or anything beyond
`now + maxTTL` is overwritten with `now + maxTTL` (the
`maxExpiration` of the Go code); other values pass through. -/
def clampFilter (f : AuctionFilterRequest) (now maxTTL : Int) :
    AuctionFilterRequest :=
  if f.expiresAtMs = 0 ∨ f.expiresAtMs > now + maxTTL then
    { f with expiresAtMs := now + maxTTL }
  else f

/-- `FilterRegistry.Register`, with `now` the epoch-millisecond reading
the Go code takes from `time.Now()`. -/
def Register (r : FilterRegistry) (filterOpt : Option AuctionFilterRequest)
    (now : Int) : RegisterResult :=
  match filterOpt with
  | none => ⟨some .invalidFilterRequest, r, none⟩
  | some filter =>
    if filter.sessionId = 0 ∨ filter.accountId = "" then
      ⟨some .invalidFilterRequest, r, some filter⟩
    else
      -- Cap expiration to max TTL
      let filter := clampFilter filter now r.maxTTL
      -- reject if at capacity
      if keyExists r filter.accountId filter.sessionId = false ∧
          r.maxFilters ≤ r.count then
        ⟨some .registryAtCapacity, r, some filter⟩
      else
        let inner := (alistLookup r.byAccount filter.accountId).getD []
        let stored : StoredFilter :=
          { filter := filter, mediaTypeSet := ToMediaTypeSet filter.mediaTypes }
        let newInner := alistInsert inner filter.sessionId stored
        let newBy := alistInsert r.byAccount filter.accountId newInner
        ⟨none,
         { r with
            byAccount := newBy
            count :=
              if keyExists r filter.accountId filter.sessionId = false then
                r.count + 1
              else r.count },
         some filter⟩

/-- `FilterRegistry.Unregister`. -/
def Unregister (r : FilterRegistry) (sessionId : Int) (accountId : String) :
    FilterRegistry :=
  match alistLookup r.byAccount accountId with
  | none => r
  | some accountFilters =>
    if (alistLookup accountFilters sessionId).isSome then
      let newInner := alistErase accountFilters sessionId
      let newBy :=
        if newInner.length = 0 then alistErase r.byAccount accountId
        else alistInsert r.byAccount accountId newInner
      { r with byAccount := newBy, count := r.count - 1 }
    else r

/-- The expiry test `filter.ExpiresAtMs > 0 && filter.ExpiresAtMs < now`
shared by `GetMatches` (skip) and `cleanupExpired` (delete). -/
def isExpired (f : StoredFilter) (now : Int) : Bool :=
  f.filter.expiresAtMs > 0 && f.filter.expiresAtMs < now

/-- `FilterRegistry.GetMatches`, with `now` the epoch-millisecond
query-time reading. -/
def GetMatches (r : FilterRegistry) (accountID domain appBundle : String)
    (eventMediaTypes : Nat) (now : Int) : List AuctionFilterRequest :=
  let accountFilters := (alistLookup r.byAccount accountID).getD []
  if accountFilters.length = 0 then []
  else
    accountFilters.filterMap (fun p =>
      -- Skip expired filters, they'll get cleaned up later
      if isExpired p.2 now then none
      else if p.2.matches domain appBundle eventMediaTypes then
        some p.2.filter
      else none)

/-- `FilterRegistry.Count`. -/
def Count (r : FilterRegistry) : Int :=
  r.count

/-- `FilterRegistry.cleanupExpired`, with `now` the epoch-millisecond
sweep-time reading. -/
def cleanupExpired (r : FilterRegistry) (now : Int) : FilterRegistry :=
  let swept := r.byAccount.map (fun a =>
    (a.1, a.2.filter (fun p => !isExpired p.2 now)))
  let expiredCount : Int :=
    ((r.byAccount.map (fun a =>
      (a.2.filter (fun p => isExpired p.2 now)).length)).sum : Nat)
  let newBy := swept.filter (fun a => !(a.2.length = 0))
  { r with
      byAccount := newBy
      count := if expiredCount > 0 then r.count - expiredCount else r.count }

/-- One of the three registry-mutating operations, for stating
whole-trace invariants. -/
inductive RegistryOp where
  | register (filter : Option AuctionFilterRequest) (now : Int)
  | unregister (sessionId : Int) (accountId : String)
  | cleanup (now : Int)

/-- Apply one operation to the registry (discarding `Register`'s return
value). -/
def applyOp (r : FilterRegistry) : RegistryOp → FilterRegistry
  | .register f now => (Register r f now).registry
  | .unregister sid acct => Unregister r sid acct
  | .cleanup now => cleanupExpired r now

/-- Run a sequence of operations from a given registry state. -/
def runOps (r : FilterRegistry) (ops : List RegistryOp) : FilterRegistry :=
  ops.foldl applyOp r

/-- All stored `(account, session, filter)` entries, both map levels
flattened. -/
def allEntries (r : FilterRegistry) : List (String × Int × StoredFilter) :=
  r.byAccount.flatMap (fun a => a.2.map (fun p => (a.1, p.1, p.2)))

/-- The number of stored entries that the sweep at time `now` deletes
(`0 < expires_at_ms < now`). -/
def numExpired (r : FilterRegistry) (now : Int) : Nat :=
  (allEntries r).countP (fun e => isExpired e.2.2 now)

/-- The entry `Register` stores for a filter: the clamped filter
together with its precomputed media-type mask. -/
def registeredStored (f : AuctionFilterRequest) (now maxTTL : Int) :
    StoredFilter :=
  { filter := clampFilter f now maxTTL
    mediaTypeSet := ToMediaTypeSet (clampFilter f now maxTTL).mediaTypes }

/-- The spec's match predicate, written as the three-way conjunction of
§4.A: each of domain / app-bundle / media-type mask is either a
wildcard or agrees with the event. -/
def matchPredicate (sf : StoredFilter) (d b : String) (M : Nat) : Prop :=
  (sf.filter.domain = "" ∨ stringEqualFold sf.filter.domain d = true) ∧
  (sf.filter.appBundle = "" ∨ stringEqualFold sf.filter.appBundle b = true) ∧
  (sf.mediaTypeSet = 0 ∨ sf.mediaTypeSet &&& M ≠ 0)

instance (sf : StoredFilter) (d b : String) (M : Nat) :
    Decidable (matchPredicate sf d b M) := by
  unfold matchPredicate
  infer_instance

/-- `AuctionEvent`, the protobuf-generated matched-event message
(fields as assembled by `buildAuctionEvent`). -/
structure AuctionEvent where
  environment : String
  timestampMs : Int
  status : Int
  accountId : String
  domain : String
  appBundle : String
  mediaTypes : List MediaType
  bidRequest : String
  bidResponse : String
deriving DecidableEq, Repr

/-- A `sarama.ProducerMessage` as built by `SendMatchedEvent` (bytes as
`List Nat`, timestamp in epoch milliseconds). -/
structure ProducerMessage where
  topic : String
  partition : Int
  key : List Nat
  value : List Nat
  timestampMs : Int
deriving DecidableEq, Repr

/-- `binary.BigEndian.PutUint32(·, uint32(x))`: the 4-byte big-endian
encoding of an `int32` converted through `uint32` (two's complement,
i.e. reduction modulo `2^32`). -/
def bigEndian4 (x : Int) : List Nat :=
  let v := (x % (2 ^ 32 : Int)).toNat
  [v / 2 ^ 24 % 256, v / 2 ^ 16 % 256, v / 2 ^ 8 % 256, v % 256]

/-- `Producer.SendMatchedEvent`: serialize the event once, then enqueue
one message per matching filter on the producer's input channel.
`serialize` stands for the external `proto.Marshal`; the returned list
is the sequence of enqueued messages, `Except.ok` the nil-error return. -/
def SendMatchedEvent (topic : String)
    (serialize : AuctionEvent → Except String (List Nat))
    (eventOpt : Option AuctionEvent) (filters : List AuctionFilterRequest) :
    Except String (List ProducerMessage) :=
  match eventOpt with
  | none => .ok []
  | some event =>
    if filters.length = 0 then .ok []
    else
      match serialize event with
      | .error e => .error ("failed to serialize event: " ++ e)
      | .ok data =>
        .ok (filters.map (fun filter =>
          { topic := topic
            partition := filter.partitionId
            key := bigEndian4 filter.sessionId
            value := data
            timestampMs := event.timestampMs }))

end AuctionAudit

namespace S3

/-- The error returned by `attemptUpload` (the object-store PUT):
deadline-exceeded is distinguished because the metrics branch tests
`errors.Is(err, context.DeadlineExceeded)`. -/
inductive UploadError where
  | deadlineExceeded
  | other (msg : String)
deriving DecidableEq, Repr

/-- The error `createS3Sender`'s closure returns on failure:
`fmt.Errorf("s3 upload failed: %w", err)` wrapping the original upload
error. -/
inductive SenderError where
  | wrapped (e : UploadError)
deriving DecidableEq, Repr

/-- `filepath.Join(fallbackDir, strings.ReplaceAll(s3Key, "/", "_"))`;
with a non-empty directory and a slash-free file name the join is plain
concatenation with a separator. -/
def fallbackFilePath (fallbackDir s3Key : String) : String :=
  fallbackDir ++ "/" ++ s3Key.replace "/" "_"

/-- Result of `writeFallbackFile`: the `(path, bytes)` the call targets,
the error returned (create or copy failure), and the completed file if
both filesystem steps succeeded. -/
structure FallbackWriteResult where
  target : String × List Nat
  err : Option String
  written : Option (String × List Nat)
deriving Repr

/-- `writeFallbackFile`: create `fallbackDir/{key with '/' → '_'}` and
copy the payload into it. `createOk` / `copyOk` stand for the outcomes
of the two filesystem operations. -/
def writeFallbackFile (createOk copyOk : Bool) (fallbackDir s3Key : String)
    (payload : List Nat) : FallbackWriteResult :=
  let filePath := fallbackFilePath fallbackDir s3Key
  if !createOk then
    ⟨(filePath, payload), some "failed to create fallback file", none⟩
  else if !copyOk then
    ⟨(filePath, payload), some "failed to write to fallback file", none⟩
  else
    ⟨(filePath, payload), none, some (filePath, payload)⟩

inductive MetricDest where
  | s3
  | local
deriving DecidableEq, Repr

inductive MetricStatus where
  | success
  | failure
  | timeout
deriving DecidableEq, Repr

/-- Outcome of one call to the closure `createS3Sender` returns: the
fallback write it invoked (if any), the fallback file completed on
disk (if any), the metrics recorded, and the error returned. -/
structure S3SendOutcome where
  attempted : Option (String × List Nat)
  written : Option (String × List Nat)
  metrics : List (MetricDest × MetricStatus)
  ret : Option SenderError
deriving Repr

/-- The upload closure built by `createS3Sender`: attempt the PUT
(outcome `uploadResult`, `none` meaning success); on failure record the
s3 metric, write the fallback file when `fallbackDir` is configured,
and return the wrapped original error. -/
def s3Send (fallbackDir : String) (uploadResult : Option UploadError)
    (createOk copyOk : Bool) (payload : List Nat) (key : String) :
    S3SendOutcome :=
  match uploadResult with
  | none => ⟨none, none, [(.s3, .success)], none⟩
  | some e =>
    let status : MetricStatus := if e = .deadlineExceeded then .timeout else .failure
    -- Write to fallback file if upload failed
    if fallbackDir != "" then
      let w := writeFallbackFile createOk copyOk fallbackDir key payload
      let localStatus : MetricStatus := if w.err.isSome then .failure else .success
      ⟨some w.target, w.written, [(.s3, status), (.local, localStatus)],
       some (.wrapped e)⟩
    else
      ⟨none, none, [(.s3, status)], some (.wrapped e)⟩

end S3

namespace AuctionAudit

/-! ### Test fixtures used by witnesses and counterexamples -/

/-- A filter for account `a1`, session 1, no predicate fields, expiry 5 ms. -/
def fixtureFilter : AuctionFilterRequest :=
  { sessionId := 1, partitionId := 0, accountId := "a1", domain := ""
    appBundle := "", mediaTypes := [], expiresAtMs := 5 }

/-- The registry after registering `fixtureFilter` at time 0 into a
fresh registry with capacity 10 and max TTL 10000 ms. -/
def fixtureRegistry : FilterRegistry :=
  (Register (NewFilterRegistry 10 10000) (some fixtureFilter) 0).registry

/-- A filter for account `a1`, session 2, with a negative requested
expiry (-7 ms), which the clamp leaves untouched. -/
def fixtureFilterNeg : AuctionFilterRequest :=
  { sessionId := 2, partitionId := 0, accountId := "a1", domain := ""
    appBundle := "", mediaTypes := [], expiresAtMs := -7 }

/-- `fixtureRegistry` after additionally registering
`fixtureFilterNeg` at time 0. -/
def fixtureRegistry2 : FilterRegistry :=
  (Register fixtureRegistry (some fixtureFilterNeg) 0).registry

/-! ### Association-list lemmas -/

theorem alistLookup_insert_self {κ α : Type} [DecidableEq κ]
    (l : List (κ × α)) (k : κ) (v : α) :
    alistLookup (alistInsert l k v) k = some v := by
  induction l with
  | nil => simp [alistInsert, alistLookup]
  | cons p rest ih =>
    obtain ⟨k', v'⟩ := p
    by_cases h : k' = k
    · simp [alistInsert, h, alistLookup]
    · simp [alistInsert, h, alistLookup, ih]

theorem alistLookup_insert_ne {κ α : Type} [DecidableEq κ]
    (l : List (κ × α)) (k k' : κ) (v : α) (h : k' ≠ k) :
    alistLookup (alistInsert l k v) k' = alistLookup l k' := by
  have hne : ¬k = k' := fun hh => h hh.symm
  induction l with
  | nil => simp [alistInsert, alistLookup, hne]
  | cons p rest ih =>
    obtain ⟨k0, v0⟩ := p
    by_cases h0 : k0 = k
    · subst h0
      simp [alistInsert, alistLookup, hne]
    · simp only [alistInsert, if_neg h0]
      by_cases h1 : k0 = k'
      · simp [alistLookup, h1]
      · simp [alistLookup, h1, ih]

theorem alistLookup_mem {κ α : Type} [DecidableEq κ]
    {l : List (κ × α)} {k : κ} {v : α} (h : alistLookup l k = some v) :
    (k, v) ∈ l := by
  induction l with
  | nil => simp [alistLookup] at h
  | cons p rest ih =>
    obtain ⟨k0, v0⟩ := p
    by_cases h0 : k0 = k
    · subst h0
      simp [alistLookup] at h
      simp [h]
    · simp [alistLookup, h0] at h
      exact List.mem_cons_of_mem _ (ih h)

theorem alistInsert_ne_nil {κ α : Type} [DecidableEq κ]
    (l : List (κ × α)) (k : κ) (v : α) :
    alistInsert l k v ≠ [] := by
  cases l with
  | nil => simp [alistInsert]
  | cons p rest =>
    obtain ⟨k0, v0⟩ := p
    by_cases h0 : k0 = k <;> simp [alistInsert, h0]

/-! ### Lemmas about the expiry clamp -/

@[simp]
theorem clampFilter_sessionId (f : AuctionFilterRequest) (now maxTTL : Int) :
    (clampFilter f now maxTTL).sessionId = f.sessionId := by
  unfold clampFilter
  split <;> rfl

@[simp]
theorem clampFilter_accountId (f : AuctionFilterRequest) (now maxTTL : Int) :
    (clampFilter f now maxTTL).accountId = f.accountId := by
  unfold clampFilter
  split <;> rfl

theorem clampFilter_expiresAtMs (f : AuctionFilterRequest) (now maxTTL : Int) :
    (clampFilter f now maxTTL).expiresAtMs =
      if f.expiresAtMs = 0 ∨ f.expiresAtMs > now + maxTTL then now + maxTTL
      else f.expiresAtMs := by
  unfold clampFilter
  split <;> simp_all

/-! ### C4: expiry clamping at registration -/

/-- C4: on any registration that stores a filter, a requested expiry of
`0` or anything beyond `now + maxTTL` is stored as exactly
`now + maxTTL` (with `now` the registration-time clock reading, so the
claim's one-second slack is met with slack zero), while a requested
expiry in `(0, now + maxTTL]` is stored unchanged. -/
theorem C4_stored_expiry_clamped (r : FilterRegistry)
    (f : AuctionFilterRequest) (now : Int)
    (h1 : f.sessionId ≠ 0) (h2 : f.accountId ≠ "")
    (hok : (Register r (some f) now).err = none) :
    ∃ sf : StoredFilter,
      lookupFilter (Register r (some f) now).registry f.accountId f.sessionId
        = some sf ∧
      sf.filter.expiresAtMs =
        (if f.expiresAtMs = 0 ∨ f.expiresAtMs > now + r.maxTTL then
          now + r.maxTTL
         else f.expiresAtMs) := by
  have hv : ¬(f.sessionId = 0 ∨ f.accountId = "") := by
    rintro (h | h)
    · exact h1 h
    · exact h2 h
  simp only [Register, clampFilter_accountId, clampFilter_sessionId] at hok ⊢
  rw [if_neg hv] at hok ⊢
  by_cases hcap :
      keyExists r f.accountId f.sessionId = false ∧ r.maxFilters ≤ r.count
  · rw [if_pos hcap] at hok
    simp at hok
  · rw [if_neg hcap] at hok ⊢
    refine ⟨⟨clampFilter f now r.maxTTL,
      ToMediaTypeSet (clampFilter f now r.maxTTL).mediaTypes⟩, ?_, ?_⟩
    · unfold lookupFilter
      rw [alistLookup_insert_self]
      exact alistLookup_insert_self _ _ _
    · exact clampFilter_expiresAtMs f now r.maxTTL

/-- Witness for C4 at a concrete input: registering session 1 of
account `a1` with requested expiry 5 into a fresh registry (capacity
10, max TTL 10000) at time 0 stores expiry 5. -/
theorem C4_stored_expiry_clamped_witness :
    ∃ sf : StoredFilter,
      lookupFilter fixtureRegistry "a1" 1 = some sf ∧
      sf.filter.expiresAtMs =
        (if fixtureFilter.expiresAtMs = 0 ∨
            fixtureFilter.expiresAtMs > 0 + (NewFilterRegistry 10 10000).maxTTL
         then 0 + (NewFilterRegistry 10 10000).maxTTL
         else fixtureFilter.expiresAtMs) :=
  C4_stored_expiry_clamped (NewFilterRegistry 10 10000) fixtureFilter 0
    (by decide) (by decide) (by decide)

/-! ### Per-operation lemmas for the capacity invariant -/

theorem register_registry_maxFilters (r : FilterRegistry)
    (fo : Option AuctionFilterRequest) (now : Int) :
    (Register r fo now).registry.maxFilters = r.maxFilters := by
  unfold Register
  cases fo with
  | none => rfl
  | some f =>
    dsimp only
    split
    · rfl
    · split
      · rfl
      · rfl

theorem register_registry_count_le (r : FilterRegistry)
    (fo : Option AuctionFilterRequest) (now : Int)
    (h : r.count ≤ r.maxFilters) :
    (Register r fo now).registry.count ≤ r.maxFilters := by
  unfold Register
  cases fo with
  | none => exact h
  | some f =>
    dsimp only
    split
    · exact h
    · split
      · exact h
      · rename_i hcap
        dsimp only
        split
        · rename_i hex
          have hroom : ¬(r.maxFilters ≤ r.count) := fun hm => hcap ⟨hex, hm⟩
          omega
        · exact h

theorem unregister_maxFilters (r : FilterRegistry) (sid : Int) (acct : String) :
    (Unregister r sid acct).maxFilters = r.maxFilters := by
  unfold Unregister
  cases alistLookup r.byAccount acct with
  | none => rfl
  | some inner =>
    dsimp only
    split
    · rfl
    · rfl

theorem unregister_count_le (r : FilterRegistry) (sid : Int) (acct : String) :
    (Unregister r sid acct).count ≤ r.count := by
  unfold Unregister
  cases alistLookup r.byAccount acct with
  | none => exact le_refl _
  | some inner =>
    dsimp only
    split
    · dsimp only
      omega
    · exact le_refl _

theorem cleanup_maxFilters (r : FilterRegistry) (now : Int) :
    (cleanupExpired r now).maxFilters = r.maxFilters := rfl

theorem cleanup_count_le (r : FilterRegistry) (now : Int) :
    (cleanupExpired r now).count ≤ r.count := by
  unfold cleanupExpired
  dsimp only
  split
  · omega
  · exact le_refl _

theorem applyOp_maxFilters (r : FilterRegistry) (op : RegistryOp) :
    (applyOp r op).maxFilters = r.maxFilters := by
  cases op with
  | register fo now => exact register_registry_maxFilters r fo now
  | unregister sid acct => exact unregister_maxFilters r sid acct
  | cleanup now => exact cleanup_maxFilters r now

theorem applyOp_count_le (r : FilterRegistry) (op : RegistryOp)
    (h : r.count ≤ r.maxFilters) :
    (applyOp r op).count ≤ r.maxFilters := by
  cases op with
  | register fo now => exact register_registry_count_le r fo now h
  | unregister sid acct => exact le_trans (unregister_count_le r sid acct) h
  | cleanup now => exact le_trans (cleanup_count_le r now) h

theorem runOps_count_le (ops : List RegistryOp) (r : FilterRegistry)
    (h : r.count ≤ r.maxFilters) :
    (runOps r ops).count ≤ r.maxFilters := by
  induction ops generalizing r with
  | nil => exact h
  | cons op rest ih =>
    have hstep : (applyOp r op).count ≤ (applyOp r op).maxFilters := by
      rw [applyOp_maxFilters]
      exact applyOp_count_le r op h
    have := ih (applyOp r op) hstep
    rwa [applyOp_maxFilters] at this

/-! ### C5: the registry never exceeds its capacity -/

/-- C5: starting from a fresh registry with non-negative capacity,
after any sequence of `Register` / `Unregister` / `cleanupExpired`
operations, `Count()` is at most `maxFilters`. -/
theorem C5_count_at_most_capacity (maxFilters maxTTL : Int)
    (h : 0 ≤ maxFilters) (ops : List RegistryOp) :
    Count (runOps (NewFilterRegistry maxFilters maxTTL) ops) ≤ maxFilters := by
  exact runOps_count_le ops (NewFilterRegistry maxFilters maxTTL) h

/-- Witness for C5 at a concrete input: registering one filter into a
fresh capacity-10 registry and sweeping leaves the count at most 10. -/
theorem C5_count_at_most_capacity_witness :
    Count (runOps (NewFilterRegistry 10 10000)
      [.register (some fixtureFilter) 0, .cleanup 6]) ≤ 10 :=
  C5_count_at_most_capacity 10 10000 (by decide)
    [.register (some fixtureFilter) 0, .cleanup 6]

/-! ### C6: the expiry sweep deletes exactly the expired entries -/

theorem mem_allEntries_iff {r : FilterRegistry} {acct : String} {sid : Int}
    {sf : StoredFilter} :
    (acct, sid, sf) ∈ allEntries r ↔
      ∃ inner, (acct, inner) ∈ r.byAccount ∧ (sid, sf) ∈ inner := by
  unfold allEntries
  rw [List.mem_flatMap]
  constructor
  · rintro ⟨⟨a1, a2⟩, ha, hm⟩
    rw [List.mem_map] at hm
    obtain ⟨⟨p1, p2⟩, hp, heq⟩ := hm
    cases heq
    exact ⟨a2, ha, hp⟩
  · rintro ⟨inner, ha, hp⟩
    exact ⟨(acct, inner), ha, List.mem_map.mpr ⟨(sid, sf), hp, rfl⟩⟩

theorem cleanup_byAccount_mem (r : FilterRegistry) (now : Int)
    (acct : String) (inner : List (Int × StoredFilter)) :
    (acct, inner) ∈ (cleanupExpired r now).byAccount ↔
      ∃ inner0, (acct, inner0) ∈ r.byAccount ∧
        inner = inner0.filter (fun p => !isExpired p.2 now) ∧ inner ≠ [] := by
  unfold cleanupExpired
  dsimp only
  rw [List.mem_filter, List.mem_map]
  constructor
  · rintro ⟨⟨⟨a1, a2⟩, ha, heq⟩, hne⟩
    cases heq
    refine ⟨a2, ha, rfl, ?_⟩
    intro hnil
    rw [hnil] at hne
    simp at hne
  · rintro ⟨inner0, ha, rfl, hne⟩
    refine ⟨⟨(acct, inner0), ha, rfl⟩, ?_⟩
    simpa [List.length_eq_zero] using hne

theorem countP_allEntries (l : List (String × List (Int × StoredFilter)))
    (now : Int) :
    ((l.map (fun a => (a.2.filter (fun p => isExpired p.2 now)).length)).sum) =
      (l.flatMap (fun a => a.2.map (fun p => (a.1, p.1, p.2)))).countP
        (fun e => isExpired e.2.2 now) := by
  induction l with
  | nil => rfl
  | cons a rest ih =>
    rw [List.map_cons, List.sum_cons, List.flatMap_cons, List.countP_append, ih]
    congr 1
    rw [List.countP_map, ← List.countP_eq_length_filter]
    rfl

/-- C6: the sweep at time `now` keeps exactly the stored entries with
`¬(0 < expires_at_ms < now)` (values untouched), keeps exactly the
accounts whose filtered inner map is non-empty, and decrements the
count by the number of deleted entries. -/
theorem C6_cleanup_characterization (r : FilterRegistry) (now : Int) :
    (∀ (acct : String) (sid : Int) (sf : StoredFilter),
      (acct, sid, sf) ∈ allEntries (cleanupExpired r now) ↔
        ((acct, sid, sf) ∈ allEntries r ∧ isExpired sf now = false)) ∧
    (∀ (acct : String) (inner : List (Int × StoredFilter)),
      (acct, inner) ∈ (cleanupExpired r now).byAccount ↔
        ∃ inner0, (acct, inner0) ∈ r.byAccount ∧
          inner = inner0.filter (fun p => !isExpired p.2 now) ∧ inner ≠ []) ∧
    Count (cleanupExpired r now) = Count r - (numExpired r now : Int) := by
  refine ⟨?_, fun acct inner => cleanup_byAccount_mem r now acct inner, ?_⟩
  · intro acct sid sf
    rw [mem_allEntries_iff]
    constructor
    · rintro ⟨inner, hin, hp⟩
      rw [cleanup_byAccount_mem] at hin
      obtain ⟨inner0, ha0, rfl, _⟩ := hin
      rw [List.mem_filter] at hp
      obtain ⟨hp0, hkeep⟩ := hp
      refine ⟨mem_allEntries_iff.mpr ⟨inner0, ha0, hp0⟩, ?_⟩
      simpa using hkeep
    · rintro ⟨hmem, hexp⟩
      obtain ⟨inner0, ha0, hp0⟩ := mem_allEntries_iff.mp hmem
      have hp : (sid, sf) ∈ inner0.filter (fun p => !isExpired p.2 now) :=
        List.mem_filter.mpr ⟨hp0, by simpa using hexp⟩
      refine ⟨inner0.filter (fun p => !isExpired p.2 now), ?_, hp⟩
      rw [cleanup_byAccount_mem]
      exact ⟨inner0, ha0, rfl, List.ne_nil_of_mem hp⟩
  · unfold cleanupExpired Count numExpired allEntries
    dsimp only
    rw [countP_allEntries r.byAccount now]
    split
    · rfl
    · rename_i hpos
      omega

/-! ### The `GetMatches` membership characterization -/

theorem matches_iff_matchPredicate (sf : StoredFilter) (d b : String) (M : Nat) :
    sf.matches d b M = true ↔ matchPredicate sf d b M := by
  unfold StoredFilter.matches matchPredicate Intersects
  by_cases h1 : sf.filter.domain = "" <;>
  by_cases h2 : stringEqualFold sf.filter.domain d = true <;>
  by_cases h3 : sf.filter.appBundle = "" <;>
  by_cases h4 : stringEqualFold sf.filter.appBundle b = true <;>
  by_cases h5 : sf.mediaTypeSet = 0 <;>
  by_cases h6 : sf.mediaTypeSet &&& M = 0 <;>
  simp_all

theorem getMatches_mem_iff (r : FilterRegistry) (acct d b : String) (M : Nat)
    (now : Int) (req : AuctionFilterRequest) :
    req ∈ GetMatches r acct d b M now ↔
      ∃ (inner : List (Int × StoredFilter)) (sid : Int) (sf : StoredFilter),
        alistLookup r.byAccount acct = some inner ∧ (sid, sf) ∈ inner ∧
        sf.filter = req ∧ isExpired sf now = false ∧
        sf.matches d b M = true := by
  unfold GetMatches
  cases hby : alistLookup r.byAccount acct with
  | none => simp
  | some inner =>
    simp only [Option.getD_some]
    by_cases hlen : inner.length = 0
    · rw [if_pos hlen]
      have hnil : inner = [] := List.length_eq_zero.mp hlen
      subst hnil
      simp
    · rw [if_neg hlen, List.mem_filterMap]
      constructor
      · rintro ⟨⟨sid, sf⟩, hmem, heq⟩
        by_cases hexp : isExpired sf now
        · simp [hexp] at heq
        · by_cases hm : sf.matches d b M
          · simp only [hexp, hm, if_true, if_false, Bool.false_eq_true,
              Option.some.injEq] at heq
            exact ⟨inner, sid, sf, rfl, hmem, heq,
              Bool.not_eq_true _ ▸ hexp, hm⟩
          · simp [hexp, hm] at heq
      · rintro ⟨inner2, sid, sf, hinner, hmem, hreq, hexp, hm⟩
        have hi : inner2 = inner := by
          injection hinner.symm
        subst hi
        exact ⟨(sid, sf), hmem, by simp [hexp, hm, hreq]⟩

/-! ### C2: `GetMatches` returns exactly the matching stored filters -/

/-- C2: a value is in the list `GetMatches(account, d, b, M)` returns
precisely when the account's inner map holds a stored, non-expired
entry with that value whose domain, app-bundle and media-type mask
each are wildcards or agree with the query (case-insensitively for the
strings, by non-empty intersection for the masks); in particular no
other account's filter is ever returned. -/
theorem C2_getMatches_characterization (r : FilterRegistry)
    (acct d b : String) (M : Nat) (now : Int) (req : AuctionFilterRequest) :
    req ∈ GetMatches r acct d b M now ↔
      ∃ (inner : List (Int × StoredFilter)) (sid : Int) (sf : StoredFilter),
        alistLookup r.byAccount acct = some inner ∧ (sid, sf) ∈ inner ∧
        sf.filter = req ∧ isExpired sf now = false ∧
        matchPredicate sf d b M := by
  rw [getMatches_mem_iff]
  constructor
  · rintro ⟨inner, sid, sf, hinner, hmem, hreq, hexp, hm⟩
    exact ⟨inner, sid, sf, hinner, hmem, hreq, hexp,
      (matches_iff_matchPredicate sf d b M).mp hm⟩
  · rintro ⟨inner, sid, sf, hinner, hmem, hreq, hexp, hm⟩
    exact ⟨inner, sid, sf, hinner, hmem, hreq, hexp,
      (matches_iff_matchPredicate sf d b M).mpr hm⟩

/-! ### C3: expiry at query time (corrected) -/

/-- Counterexample to C3 as stated: at query time `now = 5`,
`GetMatches` returns a filter with `expires_at_ms = 5` (neither `0`
nor `> now`) and one with `expires_at_ms = -7` — whose deadline has
long passed — because the skip test is `expires_at_ms > 0 &&
expires_at_ms < now`. -/
theorem C3_counterexample :
    GetMatches fixtureRegistry2 "a1" "" "" 0 5 =
      [fixtureFilter, fixtureFilterNeg] ∧
    ¬(fixtureFilter.expiresAtMs = 0 ∨ fixtureFilter.expiresAtMs > 5) ∧
    ¬(fixtureFilterNeg.expiresAtMs = 0 ∨ fixtureFilterNeg.expiresAtMs > 5) ∧
    fixtureFilterNeg.expiresAtMs < 5 := by
  refine ⟨by decide, by decide, by decide, by decide⟩

/-- C3 amended: every filter returned by `GetMatches` at query time
`now` satisfies `expires_at_ms ≤ 0` or `expires_at_ms ≥ now`:
equivalently, a filter with `0 < expires_at_ms < now` is never
returned, even before the next cleanup sweep runs. -/
theorem C3_returned_not_strictly_expired (r : FilterRegistry)
    (acct d b : String) (M : Nat) (now : Int) (req : AuctionFilterRequest)
    (h : req ∈ GetMatches r acct d b M now) :
    req.expiresAtMs ≤ 0 ∨ req.expiresAtMs ≥ now := by
  obtain ⟨inner, sid, sf, _, _, hreq, hexp, _⟩ :=
    (getMatches_mem_iff r acct d b M now req).mp h
  subst hreq
  unfold isExpired at hexp
  simp only [Bool.and_eq_false_iff, decide_eq_false_iff_not, not_lt] at hexp
  rcases hexp with h1 | h2
  · left; exact not_lt.mp (by simpa using h1)
  · right; exact by simpa using h2

/-- Witness for C3's amended theorem at a concrete input: the filter
with expiry 5 returned at query time 5 satisfies `5 ≤ 0 ∨ 5 ≥ 5`. -/
theorem C3_returned_not_strictly_expired_witness :
    fixtureFilter.expiresAtMs ≤ 0 ∨ fixtureFilter.expiresAtMs ≥ 5 :=
  C3_returned_not_strictly_expired fixtureRegistry2 "a1" "" "" 0 5
    fixtureFilter (by decide)

/-! ### C1: `Register` replace / capacity semantics -/

theorem mem_GetMatches_of_lookupFilter {r : FilterRegistry} {acct : String}
    {sid : Int} {sf : StoredFilter} {d b : String} {M : Nat} {q : Int}
    (hl : lookupFilter r acct sid = some sf)
    (hexp : isExpired sf q = false)
    (hm : sf.matches d b M = true) :
    sf.filter ∈ GetMatches r acct d b M q := by
  unfold lookupFilter at hl
  cases hby : alistLookup r.byAccount acct with
  | none => rw [hby] at hl; simp at hl
  | some inner =>
    rw [hby] at hl
    have hmem := alistLookup_mem hl
    unfold GetMatches
    rw [hby]
    simp only [Option.getD_some]
    rw [if_neg (fun hlen =>
      List.ne_nil_of_mem hmem (List.length_eq_zero.mp hlen))]
    exact List.mem_filterMap.mpr ⟨(sid, sf), hmem, by simp [hexp, hm]⟩

/-- C1: for a valid filter: if the `(account, session)` key is already
stored, `Register` succeeds, leaves the count unchanged, and replaces
the stored entry with the (clamped) new filter — whose value is what
`GetMatches` subsequently returns whenever it is non-expired and
matches the query; if the key is new and the registry is full,
`Register` returns the capacity error and leaves the registry
untouched; if the key is new and there is room, `Register` succeeds
and the count grows by exactly one. -/
theorem C1_register_replace_or_capacity (r : FilterRegistry)
    (f : AuctionFilterRequest) (now : Int)
    (h1 : f.sessionId ≠ 0) (h2 : f.accountId ≠ "") :
    (keyExists r f.accountId f.sessionId = true →
      (Register r (some f) now).err = none ∧
      Count (Register r (some f) now).registry = Count r ∧
      lookupFilter (Register r (some f) now).registry f.accountId f.sessionId
        = some (registeredStored f now r.maxTTL) ∧
      (∀ (d b : String) (M : Nat) (q : Int),
        isExpired (registeredStored f now r.maxTTL) q = false →
        (registeredStored f now r.maxTTL).matches d b M = true →
        (registeredStored f now r.maxTTL).filter ∈
          GetMatches (Register r (some f) now).registry f.accountId d b M q)) ∧
    (keyExists r f.accountId f.sessionId = false →
      (Count r = r.maxFilters →
        (Register r (some f) now).err = some .registryAtCapacity ∧
        (Register r (some f) now).registry = r) ∧
      (Count r < r.maxFilters →
        (Register r (some f) now).err = none ∧
        Count (Register r (some f) now).registry = Count r + 1)) := by
  have hv : ¬(f.sessionId = 0 ∨ f.accountId = "") := by
    rintro (h | h)
    · exact h1 h
    · exact h2 h
  simp only [Register, clampFilter_accountId, clampFilter_sessionId]
  rw [if_neg hv]
  constructor
  · intro hex
    rw [if_neg (by simp [hex])]
    have hlook :
        lookupFilter
          { r with
            byAccount := alistInsert r.byAccount f.accountId
              (alistInsert ((alistLookup r.byAccount f.accountId).getD [])
                f.sessionId
                { filter := clampFilter f now r.maxTTL
                  mediaTypeSet :=
                    ToMediaTypeSet (clampFilter f now r.maxTTL).mediaTypes })
            count :=
              if keyExists r f.accountId f.sessionId = false then r.count + 1
              else r.count }
          f.accountId f.sessionId = some (registeredStored f now r.maxTTL) := by
      unfold lookupFilter
      rw [alistLookup_insert_self]
      exact alistLookup_insert_self _ _ _
    refine ⟨rfl, ?_, hlook, ?_⟩
    · simp [Count, hex]
    · intro d b M q hexp hm
      exact mem_GetMatches_of_lookupFilter hlook hexp hm
  · intro hex
    constructor
    · intro hfull
      rw [if_pos ⟨hex, le_of_eq hfull.symm⟩]
      exact ⟨rfl, rfl⟩
    · intro hroom
      rw [if_neg (fun hcap => absurd hroom (not_lt.mpr hcap.2))]
      exact ⟨rfl, by simp [Count, hex]⟩

/-- Witness for C1 at a concrete input: registering `fixtureFilter`
into a fresh registry (capacity 10) — the key is new and there is
room, so the call succeeds and the count becomes 1. -/
theorem C1_register_replace_or_capacity_witness :
    (keyExists (NewFilterRegistry 10 10000) "a1" 1 = true →
      (Register (NewFilterRegistry 10 10000) (some fixtureFilter) 0).err = none ∧
      Count (Register (NewFilterRegistry 10 10000) (some fixtureFilter) 0).registry
        = Count (NewFilterRegistry 10 10000) ∧
      lookupFilter
        (Register (NewFilterRegistry 10 10000) (some fixtureFilter) 0).registry
        "a1" 1 = some (registeredStored fixtureFilter 0 10000) ∧
      (∀ (d b : String) (M : Nat) (q : Int),
        isExpired (registeredStored fixtureFilter 0 10000) q = false →
        (registeredStored fixtureFilter 0 10000).matches d b M = true →
        (registeredStored fixtureFilter 0 10000).filter ∈
          GetMatches
            (Register (NewFilterRegistry 10 10000) (some fixtureFilter) 0).registry
            "a1" d b M q)) ∧
    (keyExists (NewFilterRegistry 10 10000) "a1" 1 = false →
      (Count (NewFilterRegistry 10 10000) = 10 →
        (Register (NewFilterRegistry 10 10000) (some fixtureFilter) 0).err =
          some .registryAtCapacity ∧
        (Register (NewFilterRegistry 10 10000) (some fixtureFilter) 0).registry =
          NewFilterRegistry 10 10000) ∧
      (Count (NewFilterRegistry 10 10000) < 10 →
        (Register (NewFilterRegistry 10 10000) (some fixtureFilter) 0).err = none ∧
        Count (Register (NewFilterRegistry 10 10000) (some fixtureFilter) 0).registry
          = Count (NewFilterRegistry 10 10000) + 1)) := by
  have h := C1_register_replace_or_capacity (NewFilterRegistry 10 10000)
    fixtureFilter 0 (by decide) (by decide)
  simpa [fixtureFilter, NewFilterRegistry] using h

/-! ### C10: `Register` mutates the caller's filter in place -/

/-- C10: for any valid filter whose requested expiry is `0` or beyond
`now + maxTTL`, `Register` overwrites the caller's filter object's
`ExpiresAtMs` with `now + maxTTL` before the capacity check, so the
caller sees the mutation even when `ErrRegistryAtCapacity` is returned;
on that error the registry itself is unchanged. -/
theorem C10_caller_filter_mutated (r : FilterRegistry)
    (f : AuctionFilterRequest) (now : Int)
    (h1 : f.sessionId ≠ 0) (h2 : f.accountId ≠ "")
    (hc : f.expiresAtMs = 0 ∨ f.expiresAtMs > now + r.maxTTL) :
    (Register r (some f) now).callerFilter =
      some { f with expiresAtMs := now + r.maxTTL } ∧
    ((Register r (some f) now).err = some .registryAtCapacity →
      (Register r (some f) now).registry = r) := by
  have hv : ¬(f.sessionId = 0 ∨ f.accountId = "") := by
    rintro (h | h)
    · exact h1 h
    · exact h2 h
  have hclamp : clampFilter f now r.maxTTL =
      { f with expiresAtMs := now + r.maxTTL } := by
    unfold clampFilter
    rw [if_pos hc]
  simp only [Register, clampFilter_accountId, clampFilter_sessionId]
  rw [if_neg hv]
  by_cases hcap :
      keyExists r f.accountId f.sessionId = false ∧ r.maxFilters ≤ r.count
  · rw [if_pos hcap]
    exact ⟨by rw [hclamp], fun _ => rfl⟩
  · rw [if_neg hcap]
    exact ⟨by rw [hclamp], fun h => by simp at h⟩

/-- Witness for C10 at a concrete input: a fresh registry with
capacity 0 rejects session 1 of `a1` (requested expiry 0) with the
capacity error, yet the caller's filter now carries expiry
`0 + 10000`. -/
theorem C10_caller_filter_mutated_witness :
    (Register (NewFilterRegistry 0 10000)
        (some { fixtureFilter with expiresAtMs := 0 }) 0).callerFilter =
      some { { fixtureFilter with expiresAtMs := 0 } with
              expiresAtMs := 0 + (NewFilterRegistry 0 10000).maxTTL } ∧
    ((Register (NewFilterRegistry 0 10000)
        (some { fixtureFilter with expiresAtMs := 0 }) 0).err =
          some .registryAtCapacity →
      (Register (NewFilterRegistry 0 10000)
        (some { fixtureFilter with expiresAtMs := 0 }) 0).registry =
        NewFilterRegistry 0 10000) :=
  C10_caller_filter_mutated (NewFilterRegistry 0 10000)
    { fixtureFilter with expiresAtMs := 0 } 0
    (by decide) (by decide) (by decide)

/-! ### C7: media-type set round trip -/

theorem foldl_toMediaTypeSetStep_maskOf (l : List MediaType) :
    ∀ (b1 b2 b3 b4 : Bool),
      l.foldl toMediaTypeSetStep (maskOf b1 b2 b3 b4) =
        maskOf (b1 || l.contains MediaType.banner)
          (b2 || l.contains MediaType.video)
          (b3 || l.contains MediaType.audio)
          (b4 || l.contains MediaType.native) := by
  induction l with
  | nil =>
    intro b1 b2 b3 b4
    simp [List.contains]
  | cons t rest ih =>
    intro b1 b2 b3 b4
    rw [List.foldl_cons]
    have hstep : toMediaTypeSetStep (maskOf b1 b2 b3 b4) t =
        maskOf (b1 || decide (MediaType.banner = t))
          (b2 || decide (MediaType.video = t))
          (b3 || decide (MediaType.audio = t))
          (b4 || decide (MediaType.native = t)) := by
      cases t <;> cases b1 <;> cases b2 <;> cases b3 <;> cases b4 <;> rfl
    rw [hstep, ih]
    simp [List.contains_cons, Bool.or_assoc]

theorem toMediaTypeSet_eq_maskOf (l : List MediaType) :
    ToMediaTypeSet l =
      maskOf (l.contains MediaType.banner) (l.contains MediaType.video)
        (l.contains MediaType.audio) (l.contains MediaType.native) := by
  have h0 : (0 : Nat) = maskOf false false false false := by decide
  have h := foldl_toMediaTypeSetStep_maskOf l false false false false
  simpa [ToMediaTypeSet, h0] using h

theorem mem_ToSlice_maskOf :
    ∀ (b1 b2 b3 b4 : Bool) (t : MediaType),
      t ∈ ToSlice (maskOf b1 b2 b3 b4) ↔
        ((t = MediaType.banner ∧ b1 = true) ∨ (t = MediaType.video ∧ b2 = true) ∨
         (t = MediaType.audio ∧ b3 = true) ∨ (t = MediaType.native ∧ b4 = true)) := by
  intro b1 b2 b3 b4 t
  cases b1 <;> cases b2 <;> cases b3 <;> cases b4 <;> cases t <;> decide

/-- C7: for any slice over `{BANNER, VIDEO, AUDIO, NATIVE}`, encoding
it with `ToMediaTypeSet` and decoding with `ToSlice` preserves it
elementwise (so, as a set, exactly and up to order). -/
theorem C7_media_type_roundtrip (S : List MediaType)
    (hS : MediaType.unspecified ∉ S) (t : MediaType) :
    t ∈ ToSlice (ToMediaTypeSet S) ↔ t ∈ S := by
  rw [toMediaTypeSet_eq_maskOf, mem_ToSlice_maskOf]
  cases t with
  | unspecified =>
    simp only [reduceCtorEq, false_and, or_self, false_iff]
    exact hS
  | banner => simp [List.elem_iff]
  | video => simp [List.elem_iff]
  | audio => simp [List.elem_iff]
  | native => simp [List.elem_iff]

/-- Witness for C7 at a concrete input: the slice
`[BANNER, VIDEO]` round-trips; tested at element `VIDEO`. -/
theorem C7_media_type_roundtrip_witness :
    MediaType.video ∈
        ToSlice (ToMediaTypeSet [MediaType.banner, MediaType.video]) ↔
      MediaType.video ∈ [MediaType.banner, MediaType.video] :=
  C7_media_type_roundtrip [MediaType.banner, MediaType.video]
    (by decide) MediaType.video

/-! ### C8: matched-event fan-out -/

/-- C8: for a non-nil event and a non-empty filter list, once the event
serializes, `SendMatchedEvent` returns success having enqueued exactly
one message per filter, in order: partition = that filter's
`partition_id`, key = the 4-byte big-endian `uint32` encoding of that
filter's `session_id`, value = the serialized event bytes (one shared
encoding, identical across the messages), timestamp = the event's
`timestamp_ms`. -/
theorem C8_send_matched_event (topic : String)
    (serialize : AuctionEvent → Except String (List Nat))
    (event : AuctionEvent) (filters : List AuctionFilterRequest)
    (data : List Nat)
    (hfil : filters ≠ []) (hser : serialize event = .ok data) :
    SendMatchedEvent topic serialize (some event) filters =
      .ok (filters.map (fun filter =>
        { topic := topic
          partition := filter.partitionId
          key := bigEndian4 filter.sessionId
          value := data
          timestampMs := event.timestampMs })) ∧
    ∀ f : AuctionFilterRequest, (bigEndian4 f.sessionId).length = 4 := by
  constructor
  · simp only [SendMatchedEvent]
    rw [if_neg (by simpa [List.length_eq_zero] using hfil), hser]
  · intro f
    rfl

/-- Witness for C8 at a concrete input: one filter with session 258
and partition 3, a serializer returning `[7]`: one message on
partition 3 with key `[0,0,1,2]`, value `[7]`, the event timestamp. -/
theorem C8_send_matched_event_witness :
    SendMatchedEvent "t" (fun _ => .ok [7])
        (some { environment := "e", timestampMs := 99, status := 200
                accountId := "a1", domain := "", appBundle := ""
                mediaTypes := [], bidRequest := "", bidResponse := "" })
        [{ fixtureFilter with sessionId := 258, partitionId := 3 }] =
      .ok ([{ fixtureFilter with sessionId := 258, partitionId := 3 }].map
        (fun filter =>
          { topic := "t"
            partition := filter.partitionId
            key := bigEndian4 filter.sessionId
            value := [7]
            timestampMs := 99 })) ∧
    ∀ f : AuctionFilterRequest, (bigEndian4 f.sessionId).length = 4 :=
  C8_send_matched_event "t" (fun _ => .ok [7])
    { environment := "e", timestampMs := 99, status := 200
      accountId := "a1", domain := "", appBundle := ""
      mediaTypes := [], bidRequest := "", bidResponse := "" }
    [{ fixtureFilter with sessionId := 258, partitionId := 3 }]
    [7] (by decide) rfl

end AuctionAudit

namespace S3

/-! ### C9: object-store failure fallback and error propagation -/

/-- C9: whenever the upload fails, the sender returns the error
wrapping the original upload error — with or without a configured
fallback directory, and regardless of the fallback write's outcome;
and when a fallback directory is configured, the invoked fallback
write targets exactly `fallback_dir/{key with '/' replaced by '_'}`
with exactly the payload bytes, the file holding exactly those bytes
when both filesystem steps succeed. -/
theorem writeFallbackFile_target (createOk copyOk : Bool)
    (fallbackDir s3Key : String) (payload : List Nat) :
    (writeFallbackFile createOk copyOk fallbackDir s3Key payload).target =
      (fallbackFilePath fallbackDir s3Key, payload) := by
  unfold writeFallbackFile
  dsimp only
  split
  · rfl
  · split
    · rfl
    · rfl

theorem C9_upload_failure_fallback (fallbackDir key : String)
    (payload : List Nat) (e : UploadError) (createOk copyOk : Bool)
    (hdir : fallbackDir ≠ "") :
    (s3Send fallbackDir (some e) createOk copyOk payload key).ret =
      some (.wrapped e) ∧
    (s3Send "" (some e) createOk copyOk payload key).ret =
      some (.wrapped e) ∧
    (s3Send fallbackDir (some e) createOk copyOk payload key).attempted =
      some (fallbackFilePath fallbackDir key, payload) ∧
    (createOk = true → copyOk = true →
      (s3Send fallbackDir (some e) createOk copyOk payload key).written =
        some (fallbackFilePath fallbackDir key, payload)) := by
  have hb : (fallbackDir != "") = true := by
    simpa using hdir
  refine ⟨?_, rfl, ?_, ?_⟩
  · simp only [s3Send]
    rw [if_pos hb]
  · simp only [s3Send]
    rw [if_pos hb]
    dsimp only
    rw [writeFallbackFile_target]
  · intro hc hk
    subst hc
    subst hk
    simp only [s3Send]
    rw [if_pos hb]
    rfl

/-- Witness for C9 at a concrete input: directory `fb`, key `a/b/c`,
payload `[1,2,3]`, a non-timeout upload error, both filesystem steps
succeeding: the fallback write hits `fb/a_b_c` with `[1,2,3]` and the
caller gets the wrapped error. -/
theorem C9_upload_failure_fallback_witness :
    (s3Send "fb" (some (.other "boom")) true true [1, 2, 3] "a/b/c").ret =
      some (.wrapped (.other "boom")) ∧
    (s3Send "" (some (.other "boom")) true true [1, 2, 3] "a/b/c").ret =
      some (.wrapped (.other "boom")) ∧
    (s3Send "fb" (some (.other "boom")) true true [1, 2, 3] "a/b/c").attempted =
      some (fallbackFilePath "fb" "a/b/c", [1, 2, 3]) ∧
    (true = true → true = true →
      (s3Send "fb" (some (.other "boom")) true true [1, 2, 3] "a/b/c").written =
        some (fallbackFilePath "fb" "a/b/c", [1, 2, 3])) :=
  C9_upload_failure_fallback "fb" "a/b/c" [1, 2, 3] (.other "boom")
    true true (by decide)

end S3
